import Mathlib

/-!
Verification of the provenance-and-merge subsystem of the artist
data-acquisition pipeline.

The development shallowly embeds:

* the daily source-snapshot rows and their writers
  (`src/db/writer.py`: `upsert_spotify_daily`, `upsert_wiki_daily`,
  `upsert_youtube_daily`, `upsert_artist_daily`, `upsert_artist_info`,
  `upsert_api_request`),
* the consolidation engine (`merge_daily_data` in `src/db/writer.py`),
* the identity-resolution merge (`join_artist_info` in
  `src/resolve_identities.py`),
* the provenance tracers (`RunContext`, `StepContext` in
  `src/provenance/workflow_provenance.py`, and `RequestContext` in
  `src/provenance/fine_grain_provenance.py`).

Modelling conventions:

* a SQLite table is modelled as a `List` of typed rows when a claim
  talks about its multiset of rows (the snapshot tables, `api_request`),
  and as a partial map `key → Option row` (the extensional content of a
  table with a PRIMARY KEY) for the tables only accessed through their
  key (`artist_day`, `artist_info`);
* `TEXT` columns are `String` / `Option String`; `INTEGER` columns are
  `Int` / `Option Int`; `REAL` columns are never computed with, only
  copied, so they are modelled as `Option Rat`;
* timestamps are the ISO-8601 UTC strings the code stores; SQLite
  compares `TEXT` columns lexicographically, which is Lean's `<` on
  `String`;
* a JSON-encoded list column stores exactly the encoded list, so it is
  modelled by the list itself (JSON encoding of a list of strings is
  injective);
* a NOT NULL column is a plain (non-`Option`) field of the stored row
  type; a write supplying `None` for such a column violates the schema,
  SQLite raises `IntegrityError` and persists nothing, so the writer
  returns `Option` and yields `none` on that path
  (`upsert_artist_info`, `requestExitWrite`);
* a Python exception reaching a context manager's `__exit__` is the
  pair `(exc_type.__name__, str(exc_value))`; `__exit__` returning
  `False` means the exception is re-raised (not suppressed).
-/

namespace ArtistData

/-- Python exception as seen by a context manager's `__exit__`:
the exception type's name and `str(exc_value)`. -/
structure PyExc where
  etype : String
  msg : String
deriving DecidableEq

/-! ### Generic SQL upsert (INSERT ... ON CONFLICT(key) DO UPDATE SET all fields)

All writers in `src/db/writer.py` share this shape: insert the row; on a
key conflict overwrite every non-key field with the new row's value
(`excluded.*`).  On a list-modelled table this replaces every row whose
key equals the new row's key (on a table satisfying the PRIMARY KEY
invariant there is at most one such row), and appends when the key is
absent. -/

section SqlUpsert

variable {α : Type} {κ : Type} [DecidableEq κ]

/-- Insert-or-replace keyed on `key`: on conflict every field of the new
row overwrites the old row (last-write-wins, no field-level coalescing). -/
def sqlUpsert (key : α → κ) (t : List α) (r : α) : List α :=
  if t.any (fun x => key x = key r) then
    t.map (fun x => if key x = key r then r else x)
  else
    t ++ [r]

theorem sqlUpsert_of_not_mem (key : α → κ) (t : List α) (r : α)
    (h : t.any (fun x => key x = key r) = false) :
    sqlUpsert key t r = t ++ [r] := by
  simp only [sqlUpsert]
  rw [if_neg]
  simp [h]

/-- After an upsert, the rows whose key equals the upserted row's key are
exactly `[r]`, provided the table had at most one row with that key
(the PRIMARY KEY invariant). -/
theorem sqlUpsert_filter_key (key : α → κ) (t : List α) (r : α)
    (hpk : (t.filter (fun x => key x = key r)).length ≤ 1) :
    (sqlUpsert key t r).filter (fun x => key x = key r) = [r] := by
  by_cases h : t.any (fun x => key x = key r) = true
  · -- conflict branch: every matching row is replaced by `r`
    simp only [sqlUpsert, h, if_true]
    induction t with
    | nil => simp at h
    | cons a t ih =>
      by_cases ha : key a = key r
      · -- head matches: it becomes `r`; the tail can contain no match
        have htail : t.filter (fun x => key x = key r) = [] := by
          have : (List.filter (fun x => decide (key x = key r)) (a :: t)).length ≤ 1 := hpk
          rw [List.filter_cons_of_pos (by simp [ha])] at this
          simp only [List.length_cons] at this
          have h0 : (t.filter (fun x => decide (key x = key r))).length = 0 := by omega
          exact List.length_eq_zero.mp h0
        have hmap : (t.map (fun x => if key x = key r then r else x)).filter
            (fun x => key x = key r) = [] := by
          rw [List.filter_eq_nil_iff]
          intro b hb
          rcases List.mem_map.mp hb with ⟨c, hc, hbc⟩
          by_cases hck : key c = key r
          · exfalso
            have : c ∈ t.filter (fun x => decide (key x = key r)) :=
              List.mem_filter.mpr ⟨hc, by simp [hck]⟩
            rw [htail] at this
            exact absurd this (List.not_mem_nil c)
          · simp only [hck, if_neg, if_false] at hbc
            subst hbc
            simp [hck]
        rw [List.map_cons, if_pos ha, List.filter_cons_of_pos (by simp), hmap]
      · -- head does not match: it survives unchanged and is filtered out
        have hany : t.any (fun x => key x = key r) = true := by
          rcases List.any_eq_true.mp h with ⟨b, hb, hbk⟩
          rcases List.mem_cons.mp hb with hb1 | hb2
          · exact absurd (by simpa [hb1] using hbk) ha
          · exact List.any_eq_true.mpr ⟨b, hb2, hbk⟩
        have hpk' : (t.filter (fun x => key x = key r)).length ≤ 1 := by
          have : (List.filter (fun x => decide (key x = key r)) (a :: t)).length ≤ 1 := hpk
          rw [List.filter_cons_of_neg (by simp [ha])] at this
          exact this
        have hrec := ih hpk' hany
        rw [List.map_cons, if_neg ha, List.filter_cons_of_neg (by simp [ha]), hrec]
  · -- no conflict: the row is appended and is the only match
    rw [sqlUpsert_of_not_mem key t r (by simpa using h)]
    rw [List.filter_append]
    have h1 : t.filter (fun x => key x = key r) = [] := by
      rw [List.filter_eq_nil_iff]
      intro a ha hk
      exact h (List.any_eq_true.mpr ⟨a, ha, hk⟩)
    rw [h1]
    simp

end SqlUpsert

/-! ### Daily source-snapshot rows

Rows of the three per-source snapshot tables, exactly the columns the
writers in `src/db/writer.py` write (the pydantic models in
`src/schema/artist_daily.py` carry the same fields). -/

/-- Row of `spotify_artist_daily` as written by `upsert_spotify_daily`. -/
structure SpotifyArtistDaily where
  local_artist_id : String
  spotify_artist_id : String
  day_date : String
  fetched_at : String
  job_run_id : Option String
  followers_total : Option Int
  popularity : Option Int
  top_track_popularity_max : Option Rat
  top_track_popularity_mean : Option Rat
  num_top_tracks : Option Int
deriving DecidableEq

/-- Row of `wiki_artist_daily` as written by `upsert_wiki_daily`. -/
structure WikiArtistDaily where
  local_artist_id : String
  wiki_title : String
  day_date : String
  fetched_at : String
  job_run_id : Option String
  pageviews : Option Int
deriving DecidableEq

/-- Row of `youtube_artist_daily` as written by `upsert_youtube_daily`. -/
structure YouTubeArtistDaily where
  local_artist_id : String
  youtube_channel_id : String
  day_date : String
  fetched_at : String
  job_run_id : Option String
  subscribers : Option Int
  total_views : Option Int
  video_count : Option Int
deriving DecidableEq

/-- Row of the unified `artist_day` table, exactly the columns written by
`upsert_artist_daily`. -/
structure ArtistDayRow where
  local_artist_id : String
  day_date : String
  job_run_spotify : Option String
  job_run_wiki : Option String
  job_run_youtube : Option String
  spotify_followers_total : Option Int
  spotify_popularity : Option Int
  spotify_top_track_popularity_mean : Option Rat
  wiki_pageviews : Option Int
  youtube_subscribers : Option Int
  youtube_total_views : Option Int
deriving DecidableEq

/-- PRIMARY KEY (local_artist_id, day_date) of `spotify_artist_daily`. -/
def spotifyKey (r : SpotifyArtistDaily) : String × String :=
  (r.local_artist_id, r.day_date)

/-- `upsert_spotify_daily`: INSERT ... ON CONFLICT(local_artist_id, day_date)
DO UPDATE SET every other column to the new row's value. -/
def upsert_spotify_daily (t : List SpotifyArtistDaily) (r : SpotifyArtistDaily) :
    List SpotifyArtistDaily :=
  sqlUpsert spotifyKey t r

/-! ### Consolidation engine (`merge_daily_data`)

For each artist the engine issues, per source,
`SELECT ... WHERE local_artist_id = ? AND day_date = ?
ORDER BY fetched_at DESC LIMIT 1`.  On the list model this filters the
matching rows and keeps the one with the greatest `fetched_at`; among
equal timestamps the first row in table order is returned (SQLite leaves
the order of ties to the store's natural ordering). -/

/-- Row with the greatest `fetched_at` (first in table order among ties):
the `ORDER BY fetched_at DESC LIMIT 1` of the consolidation queries. -/
def latestBy {α : Type} (fetchedAt : α → String) (rows : List α) : Option α :=
  rows.foldl
    (fun acc r =>
      match acc with
      | none => some r
      | some b => if fetchedAt b < fetchedAt r then some r else some b)
    none

/-- WHERE clause of the spotify consolidation query. -/
def spotifyMatch (aid day : String) (r : SpotifyArtistDaily) : Bool :=
  r.local_artist_id == aid && r.day_date == day

/-- WHERE clause of the wikipedia consolidation query. -/
def wikiMatch (aid day : String) (r : WikiArtistDaily) : Bool :=
  r.local_artist_id == aid && r.day_date == day

/-- WHERE clause of the youtube consolidation query. -/
def youtubeMatch (aid day : String) (r : YouTubeArtistDaily) : Bool :=
  r.local_artist_id == aid && r.day_date == day

/-- The spotify query of `merge_daily_data`: most recently fetched
`spotify_artist_daily` row for `(aid, day)`, `none` when there is none. -/
def spotifyLatest (sp : List SpotifyArtistDaily) (aid day : String) :
    Option SpotifyArtistDaily :=
  latestBy SpotifyArtistDaily.fetched_at (sp.filter (spotifyMatch aid day))

/-- The wikipedia query of `merge_daily_data`. -/
def wikiLatest (wk : List WikiArtistDaily) (aid day : String) :
    Option WikiArtistDaily :=
  latestBy WikiArtistDaily.fetched_at (wk.filter (wikiMatch aid day))

/-- The youtube query of `merge_daily_data`. -/
def youtubeLatest (yt : List YouTubeArtistDaily) (aid day : String) :
    Option YouTubeArtistDaily :=
  latestBy YouTubeArtistDaily.fetched_at (yt.filter (youtubeMatch aid day))

/-- Body of the `merge_daily_data` loop for one artist: the `merged_data`
dict when at least one source returned a row (Python:
`if spotify_row or wiki_row or youtube_row`), `none` otherwise (the
artist is skipped, no upsert). -/
def mergeArtistDay (sp : List SpotifyArtistDaily) (wk : List WikiArtistDaily)
    (yt : List YouTubeArtistDaily) (aid day : String) : Option ArtistDayRow :=
  let spotify_row := spotifyLatest sp aid day
  let wiki_row := wikiLatest wk aid day
  let youtube_row := youtubeLatest yt aid day
  if spotify_row.isSome || wiki_row.isSome || youtube_row.isSome then
    some
      { local_artist_id := aid
        day_date := day
        job_run_spotify := spotify_row.bind SpotifyArtistDaily.job_run_id
        job_run_wiki := wiki_row.bind WikiArtistDaily.job_run_id
        job_run_youtube := youtube_row.bind YouTubeArtistDaily.job_run_id
        spotify_followers_total := spotify_row.bind SpotifyArtistDaily.followers_total
        spotify_popularity := spotify_row.bind SpotifyArtistDaily.popularity
        spotify_top_track_popularity_mean :=
          spotify_row.bind SpotifyArtistDaily.top_track_popularity_mean
        wiki_pageviews := wiki_row.bind WikiArtistDaily.pageviews
        youtube_subscribers := youtube_row.bind YouTubeArtistDaily.subscribers
        youtube_total_views := youtube_row.bind YouTubeArtistDaily.total_views }
  else
    none

/-- The unified `artist_day` table, PRIMARY KEY (local_artist_id, day_date),
modelled extensionally as a partial map from its key. -/
def ArtistDayTable : Type := String × String → Option ArtistDayRow

/-- `upsert_artist_daily`: INSERT ... ON CONFLICT(local_artist_id, day_date)
DO UPDATE SET every other column — on the key-map model, point update. -/
def upsert_artist_daily (t : ArtistDayTable) (r : ArtistDayRow) : ArtistDayTable :=
  fun k => if k = (r.local_artist_id, r.day_date) then some r else t k

/-- One iteration of the `merge_daily_data` loop: consolidate one artist,
upsert the merged record, or skip the artist when no source has data. -/
def mergeStep (sp : List SpotifyArtistDaily) (wk : List WikiArtistDaily)
    (yt : List YouTubeArtistDaily) (day : String) (t : ArtistDayTable)
    (aid : String) : ArtistDayTable :=
  match mergeArtistDay sp wk yt aid day with
  | none => t
  | some r => upsert_artist_daily t r

/-- `merge_daily_data(artist_list, conn, day_str)`: for each artist in the
list, consolidate the most recently fetched snapshot of each source for
`(artist, day)` into one `artist_day` record.  Only the
`local_artist_id` entry of each artist dict is consulted, so the artist
list is modelled as the list of those ids. -/
def merge_daily_data (artist_list : List String) (sp : List SpotifyArtistDaily)
    (wk : List WikiArtistDaily) (yt : List YouTubeArtistDaily) (day_str : String)
    (t : ArtistDayTable) : ArtistDayTable :=
  artist_list.foldl (mergeStep sp wk yt day_str) t

/-! ### Lemmas about the consolidation engine -/

section MergeLemmas

variable (sp : List SpotifyArtistDaily) (wk : List WikiArtistDaily)
variable (yt : List YouTubeArtistDaily) (day : String)

theorem mergeArtistDay_key (aid : String) (r : ArtistDayRow)
    (h : mergeArtistDay sp wk yt aid day = some r) :
    r.local_artist_id = aid ∧ r.day_date = day := by
  simp only [mergeArtistDay] at h
  split at h
  · cases h
    exact ⟨rfl, rfl⟩
  · cases h

/-- Pointwise behaviour of one loop iteration of `merge_daily_data`. -/
theorem mergeStep_apply (t : ArtistDayTable) (aid : String) (k : String × String) :
    mergeStep sp wk yt day t aid k =
      if k = (aid, day) then
        (match mergeArtistDay sp wk yt aid day with
         | none => t k
         | some r => some r)
      else t k := by
  cases hm : mergeArtistDay sp wk yt aid day with
  | none => simp [mergeStep, hm]
  | some r =>
    rcases mergeArtistDay_key sp wk yt day aid r hm with ⟨h1, h2⟩
    simp only [mergeStep, hm, upsert_artist_daily, h1, h2]

theorem mergeStep_comm (t : ArtistDayTable) (a b : String) :
    mergeStep sp wk yt day (mergeStep sp wk yt day t a) b =
      mergeStep sp wk yt day (mergeStep sp wk yt day t b) a := by
  funext k
  rw [mergeStep_apply, mergeStep_apply, mergeStep_apply, mergeStep_apply]
  by_cases hb : k = (b, day) <;> by_cases ha : k = (a, day)
  · -- both keys: writing artists coincide
    have : a = b := by
      rw [hb] at ha
      exact (Prod.mk.injEq b day a day ▸ ha).1.symm
    subst this
    simp
  · have hba : ¬b = a := fun h => ha (by rw [hb, h])
    have hab : ¬a = b := fun h => hba h.symm
    cases hm : mergeArtistDay sp wk yt b day <;> simp [ha, hb, hba, hab, hm]
  · have hab : ¬a = b := fun h => hb (by rw [ha, h])
    have hba : ¬b = a := fun h => hab h.symm
    cases hm : mergeArtistDay sp wk yt a day <;> simp [ha, hb, hba, hab, hm]
  · simp [ha, hb]

theorem mergeStep_idem (t : ArtistDayTable) (a : String) :
    mergeStep sp wk yt day (mergeStep sp wk yt day t a) a =
      mergeStep sp wk yt day t a := by
  funext k
  rw [mergeStep_apply, mergeStep_apply]
  by_cases ha : k = (a, day)
  · cases hm : mergeArtistDay sp wk yt a day <;> simp [ha, hm]
  · simp [ha]

theorem mergeStep_foldl_swap (rest : List String) :
    ∀ (t : ArtistDayTable) (a : String),
      rest.foldl (mergeStep sp wk yt day) (mergeStep sp wk yt day t a) =
        mergeStep sp wk yt day (rest.foldl (mergeStep sp wk yt day) t) a := by
  induction rest with
  | nil => intro t a; rfl
  | cons b rest ih =>
    intro t a
    simp only [List.foldl_cons]
    rw [mergeStep_comm sp wk yt day t a b, ih]

/-- Any artist whose consolidated record is `r` ends up with `r` stored,
whatever other artists the loop also processes. -/
theorem merge_daily_data_writes (artists : List String) (aid : String)
    (r : ArtistDayRow) (hm : mergeArtistDay sp wk yt aid day = some r) :
    ∀ (t : ArtistDayTable), aid ∈ artists →
      merge_daily_data artists sp wk yt day t (aid, day) = some r := by
  have pres : ∀ (rest : List String) (t : ArtistDayTable),
      t (aid, day) = some r →
      rest.foldl (mergeStep sp wk yt day) t (aid, day) = some r := by
    intro rest
    induction rest with
    | nil => intro t ht; exact ht
    | cons b rest ih =>
      intro t ht
      simp only [List.foldl_cons]
      apply ih
      rw [mergeStep_apply]
      by_cases hb : (aid, day) = (b, day)
      · have : b = aid := (Prod.mk.injEq aid day b day ▸ hb).1.symm
        subst this
        simp [hm]
      · simp [hb, ht]
  induction artists with
  | nil => intro t h; cases h
  | cons b rest ih =>
    intro t hmem
    rcases List.mem_cons.mp hmem with hb | hrest
    · subst hb
      simp only [merge_daily_data, List.foldl_cons]
      apply pres
      rw [mergeStep_apply]
      simp [hm]
    · simp only [merge_daily_data, List.foldl_cons]
      exact ih (mergeStep sp wk yt day t b) hrest

/-- An artist with no consolidated record leaves the unified table
untouched at its key. -/
theorem merge_daily_data_skips (artists : List String) (aid : String)
    (hm : mergeArtistDay sp wk yt aid day = none) :
    ∀ (t : ArtistDayTable),
      merge_daily_data artists sp wk yt day t (aid, day) = t (aid, day) := by
  induction artists with
  | nil => intro t; rfl
  | cons b rest ih =>
    intro t
    simp only [merge_daily_data, List.foldl_cons] at ih ⊢
    rw [ih]
    rw [mergeStep_apply]
    by_cases hb : (aid, day) = (b, day)
    · have : b = aid := (Prod.mk.injEq aid day b day ▸ hb).1.symm
      subst this
      simp [hm]
    · simp [hb]

/-- Consolidation selects its winner: on a two-row candidate set the
`ORDER BY fetched_at DESC LIMIT 1` query returns the more recently
fetched row, in either table order. -/
theorem latestBy_two {α : Type} (f : α → String) (a b : α) (h : f a < f b) :
    latestBy f [a, b] = some b ∧ latestBy f [b, a] = some b := by
  constructor
  · simp only [latestBy, List.foldl_cons, List.foldl_nil]
    rw [if_pos h]
  · simp only [latestBy, List.foldl_cons, List.foldl_nil]
    rw [if_neg (lt_asymm h)]

/-- When at least one source query returns a row for an artist in the
list, `merge_daily_data` stores the combined record built from the three
per-source latest queries. -/
theorem merge_daily_data_combines (aid : String) (artists : List String)
    (t : ArtistDayTable) (hmem : aid ∈ artists)
    (hb : ((spotifyLatest sp aid day).isSome ||
      (wikiLatest wk aid day).isSome || (youtubeLatest yt aid day).isSome) = true) :
    merge_daily_data artists sp wk yt day t (aid, day) =
      some
        { local_artist_id := aid, day_date := day
          job_run_spotify :=
            (spotifyLatest sp aid day).bind SpotifyArtistDaily.job_run_id
          job_run_wiki := (wikiLatest wk aid day).bind WikiArtistDaily.job_run_id
          job_run_youtube :=
            (youtubeLatest yt aid day).bind YouTubeArtistDaily.job_run_id
          spotify_followers_total :=
            (spotifyLatest sp aid day).bind SpotifyArtistDaily.followers_total
          spotify_popularity :=
            (spotifyLatest sp aid day).bind SpotifyArtistDaily.popularity
          spotify_top_track_popularity_mean :=
            (spotifyLatest sp aid day).bind
              SpotifyArtistDaily.top_track_popularity_mean
          wiki_pageviews := (wikiLatest wk aid day).bind WikiArtistDaily.pageviews
          youtube_subscribers :=
            (youtubeLatest yt aid day).bind YouTubeArtistDaily.subscribers
          youtube_total_views :=
            (youtubeLatest yt aid day).bind YouTubeArtistDaily.total_views } := by
  have hm : mergeArtistDay sp wk yt aid day =
      some
        { local_artist_id := aid, day_date := day
          job_run_spotify :=
            (spotifyLatest sp aid day).bind SpotifyArtistDaily.job_run_id
          job_run_wiki := (wikiLatest wk aid day).bind WikiArtistDaily.job_run_id
          job_run_youtube :=
            (youtubeLatest yt aid day).bind YouTubeArtistDaily.job_run_id
          spotify_followers_total :=
            (spotifyLatest sp aid day).bind SpotifyArtistDaily.followers_total
          spotify_popularity :=
            (spotifyLatest sp aid day).bind SpotifyArtistDaily.popularity
          spotify_top_track_popularity_mean :=
            (spotifyLatest sp aid day).bind
              SpotifyArtistDaily.top_track_popularity_mean
          wiki_pageviews := (wikiLatest wk aid day).bind WikiArtistDaily.pageviews
          youtube_subscribers :=
            (youtubeLatest yt aid day).bind YouTubeArtistDaily.subscribers
          youtube_total_views :=
            (youtubeLatest yt aid day).bind YouTubeArtistDaily.total_views } := by
    simp only [mergeArtistDay, hb, if_true]
  exact merge_daily_data_writes sp wk yt day artists aid _ hm t hmem

end MergeLemmas

/-! ### Concrete rows used to instantiate the consolidation theorems -/

/-- Earlier spotify snapshot of the example day (fetched 10:00). -/
def exSp1 : SpotifyArtistDaily :=
  { local_artist_id := "artist_x", spotify_artist_id := "sp_x"
    day_date := "2025-06-01", fetched_at := "2025-06-01T10:00:00+00:00"
    job_run_id := some "run_early", followers_total := some 100
    popularity := some 41, top_track_popularity_max := none
    top_track_popularity_mean := none, num_top_tracks := some 10 }

/-- Later spotify snapshot of the example day (fetched 14:00). -/
def exSp2 : SpotifyArtistDaily :=
  { local_artist_id := "artist_x", spotify_artist_id := "sp_x"
    day_date := "2025-06-01", fetched_at := "2025-06-01T14:00:00+00:00"
    job_run_id := some "run_late", followers_total := some 150
    popularity := some 42, top_track_popularity_max := none
    top_track_popularity_mean := none, num_top_tracks := some 10 }

/-- Earlier wikipedia snapshot of the example day. -/
def exWk1 : WikiArtistDaily :=
  { local_artist_id := "artist_x", wiki_title := "Artist_X"
    day_date := "2025-06-01", fetched_at := "2025-06-01T10:05:00+00:00"
    job_run_id := some "run_early", pageviews := some 900 }

/-- Later wikipedia snapshot of the example day. -/
def exWk2 : WikiArtistDaily :=
  { local_artist_id := "artist_x", wiki_title := "Artist_X"
    day_date := "2025-06-01", fetched_at := "2025-06-01T14:05:00+00:00"
    job_run_id := some "run_late", pageviews := some 950 }

/-- Earlier youtube snapshot of the example day. -/
def exYt1 : YouTubeArtistDaily :=
  { local_artist_id := "artist_x", youtube_channel_id := "UCx"
    day_date := "2025-06-01", fetched_at := "2025-06-01T10:10:00+00:00"
    job_run_id := some "run_early", subscribers := some 5000
    total_views := some 70000, video_count := some 31 }

/-- Later youtube snapshot of the example day. -/
def exYt2 : YouTubeArtistDaily :=
  { local_artist_id := "artist_x", youtube_channel_id := "UCx"
    day_date := "2025-06-01", fetched_at := "2025-06-01T14:10:00+00:00"
    job_run_id := some "run_late", subscribers := some 5100
    total_views := some 70500, video_count := some 31 }

/-- Spotify snapshot whose `followers_total` column is NULL (the schema
in `src/db/tables.py` leaves every metric column nullable). -/
def exSpNullMetric : SpotifyArtistDaily :=
  { local_artist_id := "artist_x", spotify_artist_id := "sp_x"
    day_date := "2025-06-01", fetched_at := "2025-06-01T10:00:00+00:00"
    job_run_id := some "run_early", followers_total := none
    popularity := some 41, top_track_popularity_max := none
    top_track_popularity_mean := none, num_top_tracks := some 10 }

/-- Empty unified table. -/
def emptyArtistDay : ArtistDayTable := fun _ => none

/-! ### Claims C1 to C3: the consolidation engine -/

/-- C1 (confirmed): latest-wins consolidation, per source.  For an entity
in the supplied list, whenever one source's snapshot table holds exactly
two rows for `(entity, day)` — in either table order — with fetch times
`t1 < t2`, `merge_daily_data` writes a unified record whose fields for
that source are taken from the `t2` (most recently fetched) snapshot;
the other sources' tables are unconstrained.  Stated as one conjunct per
source. -/
theorem merge_daily_data_latest_wins
    (sp : List SpotifyArtistDaily) (wk : List WikiArtistDaily)
    (yt : List YouTubeArtistDaily) (aid day : String) (artists : List String)
    (t : ArtistDayTable) (hmem : aid ∈ artists) :
    (∀ s1 s2 : SpotifyArtistDaily,
      sp.filter (spotifyMatch aid day) = [s1, s2] ∨
        sp.filter (spotifyMatch aid day) = [s2, s1] →
      s1.fetched_at < s2.fetched_at →
      (merge_daily_data artists sp wk yt day t (aid, day)).map
          (fun r => (r.job_run_spotify, r.spotify_followers_total,
            r.spotify_popularity, r.spotify_top_track_popularity_mean)) =
        some (s2.job_run_id, s2.followers_total, s2.popularity,
          s2.top_track_popularity_mean)) ∧
    (∀ w1 w2 : WikiArtistDaily,
      wk.filter (wikiMatch aid day) = [w1, w2] ∨
        wk.filter (wikiMatch aid day) = [w2, w1] →
      w1.fetched_at < w2.fetched_at →
      (merge_daily_data artists sp wk yt day t (aid, day)).map
          (fun r => (r.job_run_wiki, r.wiki_pageviews)) =
        some (w2.job_run_id, w2.pageviews)) ∧
    (∀ y1 y2 : YouTubeArtistDaily,
      yt.filter (youtubeMatch aid day) = [y1, y2] ∨
        yt.filter (youtubeMatch aid day) = [y2, y1] →
      y1.fetched_at < y2.fetched_at →
      (merge_daily_data artists sp wk yt day t (aid, day)).map
          (fun r => (r.job_run_youtube, r.youtube_subscribers,
            r.youtube_total_views)) =
        some (y2.job_run_id, y2.subscribers, y2.total_views)) := by
  refine ⟨?_, ?_, ?_⟩
  · intro s1 s2 hfil hlt
    have hsl : spotifyLatest sp aid day = some s2 := by
      unfold spotifyLatest
      rcases hfil with h | h <;> rw [h]
      · exact (latestBy_two _ s1 s2 hlt).1
      · exact (latestBy_two _ s1 s2 hlt).2
    have hb : ((spotifyLatest sp aid day).isSome ||
        (wikiLatest wk aid day).isSome || (youtubeLatest yt aid day).isSome) =
        true := by
      simp [hsl]
    rw [merge_daily_data_combines sp wk yt day aid artists t hmem hb]
    simp [hsl]
  · intro w1 w2 hfil hlt
    have hwl : wikiLatest wk aid day = some w2 := by
      unfold wikiLatest
      rcases hfil with h | h <;> rw [h]
      · exact (latestBy_two _ w1 w2 hlt).1
      · exact (latestBy_two _ w1 w2 hlt).2
    have hb : ((spotifyLatest sp aid day).isSome ||
        (wikiLatest wk aid day).isSome || (youtubeLatest yt aid day).isSome) =
        true := by
      simp [hwl]
    rw [merge_daily_data_combines sp wk yt day aid artists t hmem hb]
    simp [hwl]
  · intro y1 y2 hfil hlt
    have hyl : youtubeLatest yt aid day = some y2 := by
      unfold youtubeLatest
      rcases hfil with h | h <;> rw [h]
      · exact (latestBy_two _ y1 y2 hlt).1
      · exact (latestBy_two _ y1 y2 hlt).2
    have hb : ((spotifyLatest sp aid day).isSome ||
        (wikiLatest wk aid day).isSome || (youtubeLatest yt aid day).isSome) =
        true := by
      simp [hyl]
    rw [merge_daily_data_combines sp wk yt day aid artists t hmem hb]
    simp [hyl]

/-- Witness for C1: each conjunct at a concrete table set.  The spotify
conjunct is the spec §8 scenario (two spotify snapshots, the other
source tables empty: the 14:00 fetch's followers=150 wins); the wiki
conjunct runs with an empty spotify table and a singleton youtube table;
the youtube conjunct with a singleton spotify table. -/
theorem merge_daily_data_latest_wins_witness :
    (merge_daily_data ["artist_x"] [exSp1, exSp2] [] [] "2025-06-01"
        emptyArtistDay ("artist_x", "2025-06-01")).map
        (fun r => (r.job_run_spotify, r.spotify_followers_total,
          r.spotify_popularity, r.spotify_top_track_popularity_mean)) =
      some (some "run_late", some 150, some 42, none) ∧
    (merge_daily_data ["artist_x"] [] [exWk1, exWk2] [exYt1] "2025-06-01"
        emptyArtistDay ("artist_x", "2025-06-01")).map
        (fun r => (r.job_run_wiki, r.wiki_pageviews)) =
      some (some "run_late", some 950) ∧
    (merge_daily_data ["artist_x"] [exSp1] [] [exYt1, exYt2] "2025-06-01"
        emptyArtistDay ("artist_x", "2025-06-01")).map
        (fun r => (r.job_run_youtube, r.youtube_subscribers,
          r.youtube_total_views)) =
      some (some "run_late", some 5100, some 70500) := by
  refine ⟨?_, ?_, ?_⟩
  · have h := (merge_daily_data_latest_wins [exSp1, exSp2] [] [] "artist_x"
      "2025-06-01" ["artist_x"] emptyArtistDay (by decide)).1 exSp1 exSp2
      (Or.inl (by decide))
      (by simp only [exSp1, exSp2]; rw [String.lt_iff_toList_lt]; decide)
    simpa [exSp2] using h
  · have h := (merge_daily_data_latest_wins [] [exWk1, exWk2] [exYt1]
      "artist_x" "2025-06-01" ["artist_x"] emptyArtistDay (by decide)).2.1
      exWk1 exWk2 (Or.inl (by decide))
      (by simp only [exWk1, exWk2]; rw [String.lt_iff_toList_lt]; decide)
    simpa [exWk2] using h
  · have h := (merge_daily_data_latest_wins [exSp1] [] [exYt1, exYt2]
      "artist_x" "2025-06-01" ["artist_x"] emptyArtistDay (by decide)).2.2
      exYt1 exYt2 (Or.inl (by decide))
      (by simp only [exYt1, exYt2]; rw [String.lt_iff_toList_lt]; decide)
    simpa [exYt2] using h

/-- C2 (confirmed): consolidation is idempotent.  With the source snapshot
tables unchanged, running `merge_daily_data` twice leaves the unified
table exactly as running it once; the result depends only on the current
snapshot tables. -/
theorem merge_daily_data_idempotent (artists : List String)
    (sp : List SpotifyArtistDaily) (wk : List WikiArtistDaily)
    (yt : List YouTubeArtistDaily) (day : String) (t : ArtistDayTable) :
    merge_daily_data artists sp wk yt day
        (merge_daily_data artists sp wk yt day t) =
      merge_daily_data artists sp wk yt day t := by
  induction artists generalizing t with
  | nil => rfl
  | cons a rest ih =>
    simp only [merge_daily_data, List.foldl_cons] at ih ⊢
    rw [← mergeStep_foldl_swap sp wk yt day rest (mergeStep sp wk yt day t a) a,
      mergeStep_idem]
    exact ih (mergeStep sp wk yt day t a)

/-- C3 counterexample: the claim's "non-null copies" fails.  The spotify
snapshot table has a row for `(artist_x, 2025-06-01)` (the source is
present), yet its nullable `followers_total` column is NULL, and the
unified record is written with a NULL `spotify_followers_total`. -/
theorem merge_daily_data_present_source_null_field :
    (spotifyLatest [exSpNullMetric] "artist_x" "2025-06-01").isSome = true ∧
    merge_daily_data ["artist_x"] [exSpNullMetric] [] [] "2025-06-01"
        emptyArtistDay ("artist_x", "2025-06-01") =
      some
        { local_artist_id := "artist_x", day_date := "2025-06-01"
          job_run_spotify := some "run_early", job_run_wiki := none
          job_run_youtube := none
          spotify_followers_total := none
          spotify_popularity := some 41
          spotify_top_track_popularity_mean := none
          wiki_pageviews := none
          youtube_subscribers := none
          youtube_total_views := none } := by
  constructor
  · decide
  · decide

/-- C3 (amended): no-data skip and partial-source resilience.  For an
entity in the supplied list: if no source snapshot table has a row for
`(entity, day)`, the unified table is unchanged at that key (no record
is written); if at least one source has a row, a unified record is
written whose fields are copies of the corresponding fields of each
present source's most recent snapshot (hence non-null whenever the
snapshot's own column is non-null) and NULL for the absent sources. -/
theorem merge_daily_data_skip_and_combine
    (sp : List SpotifyArtistDaily) (wk : List WikiArtistDaily)
    (yt : List YouTubeArtistDaily) (aid day : String) (artists : List String)
    (t : ArtistDayTable) (hmem : aid ∈ artists) :
    (sp.filter (spotifyMatch aid day) = [] →
     wk.filter (wikiMatch aid day) = [] →
     yt.filter (youtubeMatch aid day) = [] →
       merge_daily_data artists sp wk yt day t (aid, day) = t (aid, day)) ∧
    ((spotifyLatest sp aid day).isSome = true ∨
     (wikiLatest wk aid day).isSome = true ∨
     (youtubeLatest yt aid day).isSome = true →
       merge_daily_data artists sp wk yt day t (aid, day) =
         some
           { local_artist_id := aid, day_date := day
             job_run_spotify :=
               (spotifyLatest sp aid day).bind SpotifyArtistDaily.job_run_id
             job_run_wiki := (wikiLatest wk aid day).bind WikiArtistDaily.job_run_id
             job_run_youtube :=
               (youtubeLatest yt aid day).bind YouTubeArtistDaily.job_run_id
             spotify_followers_total :=
               (spotifyLatest sp aid day).bind SpotifyArtistDaily.followers_total
             spotify_popularity :=
               (spotifyLatest sp aid day).bind SpotifyArtistDaily.popularity
             spotify_top_track_popularity_mean :=
               (spotifyLatest sp aid day).bind
                 SpotifyArtistDaily.top_track_popularity_mean
             wiki_pageviews := (wikiLatest wk aid day).bind WikiArtistDaily.pageviews
             youtube_subscribers :=
               (youtubeLatest yt aid day).bind YouTubeArtistDaily.subscribers
             youtube_total_views :=
               (youtubeLatest yt aid day).bind YouTubeArtistDaily.total_views }) := by
  constructor
  · intro hsp hwk hyt
    have hm : mergeArtistDay sp wk yt aid day = none := by
      simp [mergeArtistDay, spotifyLatest, wikiLatest, youtubeLatest,
        hsp, hwk, hyt, latestBy]
    exact merge_daily_data_skips sp wk yt day artists aid hm t
  · intro hcond
    have hb : ((spotifyLatest sp aid day).isSome ||
        (wikiLatest wk aid day).isSome || (youtubeLatest yt aid day).isSome) = true := by
      rcases hcond with h | h | h <;> simp [h]
    have hm : mergeArtistDay sp wk yt aid day =
        some
          { local_artist_id := aid, day_date := day
            job_run_spotify :=
              (spotifyLatest sp aid day).bind SpotifyArtistDaily.job_run_id
            job_run_wiki := (wikiLatest wk aid day).bind WikiArtistDaily.job_run_id
            job_run_youtube :=
              (youtubeLatest yt aid day).bind YouTubeArtistDaily.job_run_id
            spotify_followers_total :=
              (spotifyLatest sp aid day).bind SpotifyArtistDaily.followers_total
            spotify_popularity :=
              (spotifyLatest sp aid day).bind SpotifyArtistDaily.popularity
            spotify_top_track_popularity_mean :=
              (spotifyLatest sp aid day).bind
                SpotifyArtistDaily.top_track_popularity_mean
            wiki_pageviews := (wikiLatest wk aid day).bind WikiArtistDaily.pageviews
            youtube_subscribers :=
              (youtubeLatest yt aid day).bind YouTubeArtistDaily.subscribers
            youtube_total_views :=
              (youtubeLatest yt aid day).bind YouTubeArtistDaily.total_views } := by
      simp only [mergeArtistDay, hb, if_true]
    exact merge_daily_data_writes sp wk yt day artists aid _ hm t hmem

/-- Witness for C3 (amended): the no-data branch for a wholly absent
entity, and the partial-source branch with only a wikipedia snapshot. -/
theorem merge_daily_data_skip_and_combine_witness :
    merge_daily_data ["artist_x"] [] [] [] "2025-06-01" emptyArtistDay
        ("artist_x", "2025-06-01") = emptyArtistDay ("artist_x", "2025-06-01") ∧
    merge_daily_data ["artist_x"] [] [exWk2] [] "2025-06-01" emptyArtistDay
        ("artist_x", "2025-06-01") =
      some
        { local_artist_id := "artist_x", day_date := "2025-06-01"
          job_run_spotify := none, job_run_wiki := some "run_late"
          job_run_youtube := none
          spotify_followers_total := none, spotify_popularity := none
          spotify_top_track_popularity_mean := none
          wiki_pageviews := some 950
          youtube_subscribers := none, youtube_total_views := none } := by
  constructor
  · exact (merge_daily_data_skip_and_combine [] [] [] "artist_x" "2025-06-01"
      ["artist_x"] emptyArtistDay (by decide)).1 rfl rfl rfl
  · have h := (merge_daily_data_skip_and_combine [] [exWk2] [] "artist_x"
      "2025-06-01" ["artist_x"] emptyArtistDay (by decide)).2
      (Or.inr (Or.inl (by decide)))
    simpa [wikiLatest, wikiMatch, exWk2, latestBy, spotifyLatest,
      youtubeLatest] using h

/-! ### Claim C4: Source Snapshot Writer full replacement -/

/-- C4 (confirmed): `upsert_spotify_daily` is insert-or-replace keyed on
`(local_artist_id, day_date)`.  Upserting `r1` then `r2` with the same
key into a table with at most one row for that key (the PRIMARY KEY
invariant) leaves exactly one row for that key, and that row is `r2` in
every field — no field-level coalescing of `r1`'s values survives. -/
theorem upsert_spotify_daily_full_replacement (t : List SpotifyArtistDaily)
    (r1 r2 : SpotifyArtistDaily) (hkey : spotifyKey r1 = spotifyKey r2)
    (hpk : (t.filter (fun x => spotifyKey x = spotifyKey r2)).length ≤ 1) :
    (upsert_spotify_daily (upsert_spotify_daily t r1) r2).filter
      (fun x => spotifyKey x = spotifyKey r2) = [r2] := by
  have h1 : (sqlUpsert spotifyKey t r1).filter
      (fun x => spotifyKey x = spotifyKey r1) = [r1] := by
    apply sqlUpsert_filter_key
    rw [hkey]
    exact hpk
  rw [hkey] at h1
  unfold upsert_spotify_daily
  apply sqlUpsert_filter_key
  rw [h1]
  exact Nat.le_refl 1

/-- Witness for C4 at the scenario of spec §8: the 10:00 snapshot
(followers 100) then the 14:00 snapshot (followers 150) leave one row,
the 150 one. -/
theorem upsert_spotify_daily_full_replacement_witness :
    (upsert_spotify_daily (upsert_spotify_daily [] exSp1) exSp2).filter
      (fun x => spotifyKey x = spotifyKey exSp2) = [exSp2] :=
  upsert_spotify_daily_full_replacement [] exSp1 exSp2 (by decide) (by decide)

/-! ### Identity resolution: `ArtistInfo`, `join_artist_info`, `upsert_artist_info`

`join_artist_info` (src/resolve_identities.py) merges two pydantic
`ArtistInfo` records with Python's `or`: the update's field wins when it
is truthy, otherwise the base's field is kept.  On `Optional[str]`
fields both `None` and `""` are falsy; on the `genres` list `[]` is
falsy.  `local_artist_id` is copied from the base unconditionally, and
`wiki_title` is not passed to the constructor at all, so it takes the
pydantic default `None`. -/

/-- Pydantic `ArtistInfo` model (src/schema/artist_info.py). -/
structure ArtistInfo where
  local_artist_id : String
  artist_name : Option String
  spotify_artist_id : Option String
  wiki_title : Option String
  youtube_channel_id : Option String
  genres : List String
  image_url : Option String
  spotify_url : Option String
  wikipedia_url : Option String
  youtube_channel_url : Option String
  spotify_fetched_at : Option String
  spotify_job_run_id : Option String
  spotify_request_id : Option String
  wikipedia_fetched_at : Option String
  wikipedia_job_run_id : Option String
  wikipedia_request_id : Option String
  youtube_fetched_at : Option String
  youtube_job_run_id : Option String
  youtube_request_id : Option String
deriving DecidableEq

/-- Python's `u or b` on `Optional[str]` values: `None` and the empty
string are falsy, any other string is truthy. -/
def pyOrStr (u b : Option String) : Option String :=
  match u with
  | none => b
  | some s => if s = "" then b else some s

/-- Python's `u or b` on lists: the empty list is falsy. -/
def pyOrList (u b : List String) : List String :=
  if u = [] then b else u

/-- `join_artist_info(base, updates)`: merge two `ArtistInfo` records,
field-by-field `updates.f or base.f`; `local_artist_id` always from the
base; `wiki_title` not set (pydantic default `None`). -/
def join_artist_info (base updates : ArtistInfo) : ArtistInfo :=
  { local_artist_id := base.local_artist_id
    wikipedia_url := pyOrStr updates.wikipedia_url base.wikipedia_url
    youtube_channel_id := pyOrStr updates.youtube_channel_id base.youtube_channel_id
    spotify_artist_id := pyOrStr updates.spotify_artist_id base.spotify_artist_id
    artist_name := pyOrStr updates.artist_name base.artist_name
    wiki_title := none
    genres := pyOrList updates.genres base.genres
    image_url := pyOrStr updates.image_url base.image_url
    spotify_url := pyOrStr updates.spotify_url base.spotify_url
    youtube_channel_url := pyOrStr updates.youtube_channel_url base.youtube_channel_url
    spotify_fetched_at := pyOrStr updates.spotify_fetched_at base.spotify_fetched_at
    spotify_job_run_id := pyOrStr updates.spotify_job_run_id base.spotify_job_run_id
    spotify_request_id := pyOrStr updates.spotify_request_id base.spotify_request_id
    wikipedia_fetched_at := pyOrStr updates.wikipedia_fetched_at base.wikipedia_fetched_at
    wikipedia_job_run_id := pyOrStr updates.wikipedia_job_run_id base.wikipedia_job_run_id
    wikipedia_request_id := pyOrStr updates.wikipedia_request_id base.wikipedia_request_id
    youtube_fetched_at := pyOrStr updates.youtube_fetched_at base.youtube_fetched_at
    youtube_job_run_id := pyOrStr updates.youtube_job_run_id base.youtube_job_run_id
    youtube_request_id := pyOrStr updates.youtube_request_id base.youtube_request_id }

/-- Stored row of the `artist_info` table, the columns written by
`upsert_artist_info` (the `genres` list is stored JSON-encoded; the
encoding of a list of strings is injective, so the row carries the
list).  The DDL (src/db/tables.py lines 20-28) declares the nine
provenance columns `*_fetched_at`, `*_job_run_id`, `*_request_id`
NOT NULL, so the stored row carries them as plain strings. -/
structure ArtistInfoRow where
  local_artist_id : String
  artist_name : Option String
  spotify_artist_id : Option String
  wiki_title : Option String
  youtube_channel_id : Option String
  genres_json : List String
  image_url : Option String
  spotify_url : Option String
  wikipedia_url : Option String
  youtube_channel_url : Option String
  spotify_fetched_at : String
  spotify_job_run_id : String
  spotify_request_id : String
  wikipedia_fetched_at : String
  wikipedia_job_run_id : String
  wikipedia_request_id : String
  youtube_fetched_at : String
  youtube_job_run_id : String
  youtube_request_id : String
deriving DecidableEq

/-- Row written for an `ArtistInfo` record: every column from the record.
`none` when any of the nine NOT NULL provenance columns would be NULL —
in that case the statement violates the schema and SQLite raises
`IntegrityError` instead of producing a row. -/
def artistInfoRowOf (a : ArtistInfo) : Option ArtistInfoRow := do
  let sfa ← a.spotify_fetched_at
  let sjr ← a.spotify_job_run_id
  let sri ← a.spotify_request_id
  let wfa ← a.wikipedia_fetched_at
  let wjr ← a.wikipedia_job_run_id
  let wri ← a.wikipedia_request_id
  let yfa ← a.youtube_fetched_at
  let yjr ← a.youtube_job_run_id
  let yri ← a.youtube_request_id
  pure
    { local_artist_id := a.local_artist_id
      artist_name := a.artist_name
      spotify_artist_id := a.spotify_artist_id
      wiki_title := a.wiki_title
      youtube_channel_id := a.youtube_channel_id
      genres_json := a.genres
      image_url := a.image_url
      spotify_url := a.spotify_url
      wikipedia_url := a.wikipedia_url
      youtube_channel_url := a.youtube_channel_url
      spotify_fetched_at := sfa
      spotify_job_run_id := sjr
      spotify_request_id := sri
      wikipedia_fetched_at := wfa
      wikipedia_job_run_id := wjr
      wikipedia_request_id := wri
      youtube_fetched_at := yfa
      youtube_job_run_id := yjr
      youtube_request_id := yri }

/-- The `artist_info` table, PRIMARY KEY `local_artist_id`, modelled
extensionally as a partial map from its key. -/
def ArtistInfoTable : Type := String → Option ArtistInfoRow

/-- `upsert_artist_info`: INSERT ... ON CONFLICT(local_artist_id) DO
UPDATE SET — **every** column of the stored row is overwritten with the
new record's value (src/db/writer.py lines 59-77).  When a NOT NULL
provenance column of the record is None the statement raises
`IntegrityError` and the table is unchanged: the write returns `none`
and the exception propagates to the caller. -/
def upsert_artist_info (t : ArtistInfoTable) (a : ArtistInfo) :
    Option ArtistInfoTable :=
  (artistInfoRowOf a).map
    (fun row => fun k => if k = a.local_artist_id then some row else t k)

/-! ### Claims C5 and C10: the reference-info merge -/

/-- ArtistInfo record with every optional field `None` (what a resolution
pass produces when the platform lookups return nothing usable). -/
def exInfoAllNone : ArtistInfo :=
  { local_artist_id := "artist_x"
    artist_name := none, spotify_artist_id := none, wiki_title := none
    youtube_channel_id := none, genres := [], image_url := none
    spotify_url := none, wikipedia_url := none, youtube_channel_url := none
    spotify_fetched_at := none, spotify_job_run_id := none
    spotify_request_id := none, wikipedia_fetched_at := none
    wikipedia_job_run_id := none, wikipedia_request_id := none
    youtube_fetched_at := none, youtube_job_run_id := none
    youtube_request_id := none }

/-- Stored `artist_info` row whose `image_url` is `"old.png"`; its nine
NOT NULL provenance columns are populated, as the schema requires. -/
def exStoredInfoRow : ArtistInfoRow :=
  { local_artist_id := "artist_x"
    artist_name := some "Artist X", spotify_artist_id := some "sp_x"
    wiki_title := some "Artist_X", youtube_channel_id := some "UCx"
    genres_json := ["pop"], image_url := some "old.png"
    spotify_url := none, wikipedia_url := none, youtube_channel_url := none
    spotify_fetched_at := "2025-05-01T00:00:00+00:00"
    spotify_job_run_id := "run_old", spotify_request_id := "req_s_old"
    wikipedia_fetched_at := "2025-05-01T00:00:01+00:00"
    wikipedia_job_run_id := "run_old", wikipedia_request_id := "req_w_old"
    youtube_fetched_at := "2025-05-01T00:00:02+00:00"
    youtube_job_run_id := "run_old", youtube_request_id := "req_y_old" }

/-- Stored table holding `exStoredInfoRow` under key `"artist_x"`. -/
def exInfoTable : ArtistInfoTable :=
  fun k => if k = "artist_x" then some exStoredInfoRow else none

/-- Per-source record of a fresh resolution pass in which spotify's
lookup succeeded (provenance set) but returned no image. -/
def exSpotifyInfo : ArtistInfo :=
  { local_artist_id := "artist_x"
    artist_name := some "Artist X", spotify_artist_id := some "sp_x"
    wiki_title := none, youtube_channel_id := none
    genres := ["pop"], image_url := none
    spotify_url := some "https://open.spotify.com/artist/sp_x"
    wikipedia_url := none, youtube_channel_url := none
    spotify_fetched_at := some "2025-06-02T00:00:00+00:00"
    spotify_job_run_id := some "run_new", spotify_request_id := some "req_s_new"
    wikipedia_fetched_at := none, wikipedia_job_run_id := none
    wikipedia_request_id := none, youtube_fetched_at := none
    youtube_job_run_id := none, youtube_request_id := none }

/-- Wikipedia record of the same pass (its provenance set, no image). -/
def exWikiInfo : ArtistInfo :=
  { local_artist_id := "artist_x"
    artist_name := none, spotify_artist_id := none
    wiki_title := none, youtube_channel_id := none
    genres := [], image_url := none
    spotify_url := none
    wikipedia_url := some "https://en.wikipedia.org/wiki/Artist_X"
    youtube_channel_url := none
    spotify_fetched_at := none, spotify_job_run_id := none
    spotify_request_id := none
    wikipedia_fetched_at := some "2025-06-02T00:00:01+00:00"
    wikipedia_job_run_id := some "run_new"
    wikipedia_request_id := some "req_w_new"
    youtube_fetched_at := none, youtube_job_run_id := none
    youtube_request_id := none }

/-- YouTube record of the same pass (its provenance set, no image). -/
def exYoutubeInfo : ArtistInfo :=
  { local_artist_id := "artist_x"
    artist_name := none, spotify_artist_id := none
    wiki_title := none, youtube_channel_id := some "UCx"
    genres := [], image_url := none
    spotify_url := none, wikipedia_url := none
    youtube_channel_url := some "https://www.youtube.com/channel/UCx"
    spotify_fetched_at := none, spotify_job_run_id := none
    spotify_request_id := none
    wikipedia_fetched_at := none, wikipedia_job_run_id := none
    wikipedia_request_id := none
    youtube_fetched_at := some "2025-06-02T00:00:02+00:00"
    youtube_job_run_id := some "run_new"
    youtube_request_id := some "req_y_new" }

/-- Combined record of the pass, exactly as `retrieve_and_store_artist_info`
builds it: all nine provenance columns non-null (schema-valid), yet
`image_url` null. -/
def exCombinedInfo : ArtistInfo :=
  join_artist_info (join_artist_info exSpotifyInfo exWikiInfo) exYoutubeInfo

/-- The row `upsert_artist_info` stores for `exCombinedInfo`. -/
def exCombinedRow : ArtistInfoRow :=
  { local_artist_id := "artist_x"
    artist_name := some "Artist X", spotify_artist_id := some "sp_x"
    wiki_title := none, youtube_channel_id := some "UCx"
    genres_json := ["pop"], image_url := none
    spotify_url := some "https://open.spotify.com/artist/sp_x"
    wikipedia_url := some "https://en.wikipedia.org/wiki/Artist_X"
    youtube_channel_url := some "https://www.youtube.com/channel/UCx"
    spotify_fetched_at := "2025-06-02T00:00:00+00:00"
    spotify_job_run_id := "run_new", spotify_request_id := "req_s_new"
    wikipedia_fetched_at := "2025-06-02T00:00:01+00:00"
    wikipedia_job_run_id := "run_new", wikipedia_request_id := "req_w_new"
    youtube_fetched_at := "2025-06-02T00:00:02+00:00"
    youtube_job_run_id := "run_new", youtube_request_id := "req_y_new" }

/-- C5 counterexample: the stored record has `image_url="old.png"`; a new
resolution pass succeeds on all three sources (all nine NOT NULL
provenance columns of the merged record are populated, so the upsert
passes the schema and actually writes) but none of the lookups returned
an image, so the merged record has `image_url=null`; after the store
write the stored record's `image_url` is NULL — the known value was
overwritten with an unknown one, because `upsert_artist_info` replaces
every field and the merge never consults the previously stored row. -/
theorem upsert_artist_info_overwrites_stored_with_null :
    (exInfoTable "artist_x").bind ArtistInfoRow.image_url = some "old.png" ∧
    exCombinedInfo.image_url = none ∧
    (upsert_artist_info exInfoTable exCombinedInfo).isSome = true ∧
    ((upsert_artist_info exInfoTable exCombinedInfo).bind
        (fun t2 => t2 "artist_x")).bind ArtistInfoRow.image_url = none := by
  refine ⟨by decide, by decide, by decide, by decide⟩

/-- C5 (amended): the prefer-newest-non-null policy holds at the
in-memory merge — `join_artist_info` keeps the base's `image_url` when
the update's is null and takes the update's when it is a non-empty
string — but the store write `upsert_artist_info` replaces every stored
field unconditionally whenever the merged record satisfies the schema
(all nine NOT NULL provenance columns populated), so a previously stored
record's known field is overwritten by whatever such a record holds,
including null; a merged record with a NULL provenance column instead
raises `IntegrityError` and leaves the table unchanged. -/
theorem join_artist_info_merge_and_store (b u : ArtistInfo)
    (t : ArtistInfoTable) (a : ArtistInfo) (s : String) (row : ArtistInfoRow)
    (hnull : u.image_url = none) (hs : s ≠ "")
    (hrow : artistInfoRowOf a = some row) :
    (join_artist_info b u).image_url = b.image_url ∧
    (join_artist_info b { u with image_url := some s }).image_url = some s ∧
    (upsert_artist_info t a).bind (fun t2 => t2 a.local_artist_id) =
      some row ∧
    (∀ a2 : ArtistInfo, artistInfoRowOf a2 = none →
       upsert_artist_info t a2 = none) := by
  refine ⟨?_, ?_, ?_, ?_⟩
  · simp [join_artist_info, pyOrStr, hnull]
  · simp [join_artist_info, pyOrStr, hs]
  · simp [upsert_artist_info, hrow]
  · intro a2 h2
    simp [upsert_artist_info, h2]

/-- Witness for C5 (amended) at a concrete base, update, table and
schema-valid merged record. -/
theorem join_artist_info_merge_and_store_witness :
    (join_artist_info { exInfoAllNone with image_url := some "old.png" }
        exInfoAllNone).image_url = some "old.png" ∧
    (join_artist_info { exInfoAllNone with image_url := some "old.png" }
        { exInfoAllNone with image_url := some "new.png" }).image_url =
      some "new.png" ∧
    (upsert_artist_info exInfoTable exCombinedInfo).bind
        (fun t2 => t2 exCombinedInfo.local_artist_id) =
      some exCombinedRow := by
  have h := join_artist_info_merge_and_store
    { exInfoAllNone with image_url := some "old.png" } exInfoAllNone
    exInfoTable exCombinedInfo "new.png" exCombinedRow rfl (by decide)
    (by decide)
  exact ⟨h.1, h.2.1, h.2.2.1⟩

/-- C10 (confirmed): `join_artist_info` treats non-null but falsy update
fields as missing — an empty-string `artist_name` and an empty `genres`
list both fall back to the base's value — and the merged record's
`local_artist_id` is the base's for every update. -/
theorem join_artist_info_falsy_fields (b u v : ArtistInfo)
    (hname : u.artist_name = some "") (hgen : u.genres = []) :
    (join_artist_info b v).local_artist_id = b.local_artist_id ∧
    (join_artist_info b u).artist_name = b.artist_name ∧
    (join_artist_info b u).genres = b.genres := by
  refine ⟨rfl, ?_, ?_⟩
  · simp [join_artist_info, pyOrStr, hname]
  · simp [join_artist_info, pyOrList, hgen]

/-- Witness for C10: empty-string name and empty genre list of the update
are ignored in favour of the base's values. -/
theorem join_artist_info_falsy_fields_witness :
    (join_artist_info
        { exInfoAllNone with artist_name := some "Artist X", genres := ["pop"] }
        { exInfoAllNone with local_artist_id := "other" }).local_artist_id =
      "artist_x" ∧
    (join_artist_info
        { exInfoAllNone with artist_name := some "Artist X", genres := ["pop"] }
        { exInfoAllNone with artist_name := some "" }).artist_name =
      some "Artist X" ∧
    (join_artist_info
        { exInfoAllNone with artist_name := some "Artist X", genres := ["pop"] }
        { exInfoAllNone with artist_name := some "" }).genres = ["pop"] :=
  join_artist_info_falsy_fields
    { exInfoAllNone with artist_name := some "Artist X", genres := ["pop"] }
    { exInfoAllNone with artist_name := some "" }
    { exInfoAllNone with local_artist_id := "other" } rfl rfl

/-! ### Request Tracer (`RequestContext`, src/provenance/fine_grain_provenance.py)

`__exit__` computes the row it persists through `upsert_api_request`
from the mutable context state and the escaping exception (if any), and
returns `False`, so the exception always propagates.  The wall-clock
readings (`finished_at`, `duration_ms`) are inputs of the model. -/

/-- Mutable state of a `RequestContext` at the time `__exit__` runs. -/
structure RequestContextState where
  run_id : String
  step_run_id : Option String
  source : String
  local_artist_id : String
  platform_id : String
  endpoint : Option String
  http_status : Option Int
  params : Option (List (String × String))
  request_id : String
  started_at : String
deriving DecidableEq

/-- Setter `set_http_status`. -/
def set_http_status (c : RequestContextState) (v : Int) : RequestContextState :=
  { c with http_status := some v }

/-- Setter `set_endpoint`. -/
def set_endpoint (c : RequestContextState) (e : String) : RequestContextState :=
  { c with endpoint := some e }

/-- Setter `set_params` (the dict is copied; an association list models
the opaque key-value set). -/
def set_params (c : RequestContextState) (p : List (String × String)) :
    RequestContextState :=
  { c with params := some p }

/-- Row of the `api_request` table, the columns written by
`upsert_api_request`.  The DDL (src/db/tables.py line 212) declares
`endpoint TEXT NOT NULL`, so a persisted row carries it as a plain
string. -/
structure ApiRequestRow where
  request_id : String
  run_id : String
  step_run_id : Option String
  source : String
  local_artist_id : String
  platform_id : String
  endpoint : String
  request_params_json : Option (List (String × String))
  requested_at : String
  finished_at : String
  duration_ms : Int
  http_status : Option Int
  ok : Int
  error_type : Option String
  error_message : Option String
deriving DecidableEq

/-- Row persisted by `RequestContext.__exit__` for a scope whose endpoint
has been set to `ep`: params as currently set (possibly still null),
`http_status=None` unconditionally (line 65 of the source), `ok` 1
without an exception and 0 with one, error kind and message from the
exception. -/
def requestExitRow (c : RequestContextState) (ep : String)
    (finished_at : String) (duration_ms : Int) (exc : Option PyExc) :
    ApiRequestRow :=
  { request_id := c.request_id
    run_id := c.run_id
    step_run_id := c.step_run_id
    source := c.source
    local_artist_id := c.local_artist_id
    platform_id := c.platform_id
    endpoint := ep
    request_params_json := c.params
    requested_at := c.started_at
    finished_at := finished_at
    duration_ms := duration_ms
    http_status := none
    ok := if exc.isSome then 0 else 1
    error_type := exc.map PyExc.etype
    error_message := exc.map PyExc.msg }

/-- `RequestContext.__exit__` returns `False`: exceptions are re-raised. -/
def requestExitReturn : Bool := false

/-- PRIMARY KEY of `api_request`. -/
def apiRequestKey (r : ApiRequestRow) : String := r.request_id

/-- `upsert_api_request`: INSERT ... ON CONFLICT(request_id) DO UPDATE
SET every other column. -/
def upsert_api_request (t : List ApiRequestRow) (r : ApiRequestRow) :
    List ApiRequestRow :=
  sqlUpsert apiRequestKey t r

/-- The one storage write `RequestContext.__exit__` performs.  When the
scope's endpoint was never set, `upsert_api_request` passes
`endpoint=None` to an `endpoint TEXT NOT NULL` column: SQLite raises
`IntegrityError`, no row is persisted, and the table is unchanged —
modelled by `none`. -/
def requestExitWrite (t : List ApiRequestRow) (c : RequestContextState)
    (finished_at : String) (duration_ms : Int) (exc : Option PyExc) :
    Option (List ApiRequestRow) :=
  match c.endpoint with
  | none => none
  | some ep => some (upsert_api_request t (requestExitRow c ep finished_at duration_ms exc))

/-! ### Claims C6 and C9: the Request Tracer -/

/-- Example request-context state with endpoint and status never set, as
every failing adapter call leaves it (the adapters call `set_endpoint`
only after a successful request). -/
def exReqState : RequestContextState :=
  { run_id := "run_late", step_run_id := none, source := "spotify"
    local_artist_id := "artist_x", platform_id := "sp_x"
    endpoint := none, http_status := none, params := none
    request_id := "req_1", started_at := "2025-06-01T14:00:00+00:00" }

/-- The same scope after `set_endpoint` ran. -/
def exReqStateSet : RequestContextState :=
  set_endpoint exReqState "/v1/artists/sp_x"

/-- C6 counterexample: a scope whose endpoint was never set — the state
every failing adapter call closes with — is not persisted with nulls:
the close write violates `endpoint TEXT NOT NULL`, `IntegrityError` is
raised, and the trace row is dropped. -/
theorem request_context_unset_endpoint_drops_trace :
    exReqState.endpoint = none ∧
    requestExitWrite [] exReqState "2025-06-01T14:00:02+00:00" 2000
        (some ⟨"HTTPError", "boom"⟩) = none :=
  ⟨rfl, rfl⟩

/-- C6 (amended): for a request scope whose endpoint has been set,
exactly one request row is appended at close (its fresh UUID key is not
yet present), even when the HTTP status was never set — the row carries
its nulls rather than being dropped; the persisted `ok` flag is 0
exactly when an exception escaped the wrapped call, the error
kind/message are recorded, and `__exit__` returns `False` so the
exception is re-raised, never swallowed.  A scope whose endpoint was
never set instead fails the close write's NOT NULL constraint:
`IntegrityError` is raised and no trace row is persisted. -/
theorem request_context_exit_contract (t : List ApiRequestRow)
    (c : RequestContextState) (ep finished_at : String) (duration_ms : Int)
    (exc : Option PyExc) (hset : c.endpoint = some ep)
    (hfresh : t.any (fun x => x.request_id = c.request_id) = false) :
    requestExitWrite t c finished_at duration_ms exc =
      some (t ++ [requestExitRow c ep finished_at duration_ms exc]) ∧
    ((requestExitRow c ep finished_at duration_ms exc).ok = 0 ↔
      exc.isSome = true) ∧
    (requestExitRow c ep finished_at duration_ms exc).http_status = none ∧
    (requestExitRow c ep finished_at duration_ms exc).error_type =
      exc.map PyExc.etype ∧
    (requestExitRow c ep finished_at duration_ms exc).error_message =
      exc.map PyExc.msg ∧
    (∀ c2 : RequestContextState, c2.endpoint = none →
       requestExitWrite t c2 finished_at duration_ms exc = none) ∧
    requestExitReturn = false := by
  refine ⟨?_, ?_, rfl, rfl, rfl, ?_, rfl⟩
  · have hfresh2 : (t.any fun x => apiRequestKey x =
        apiRequestKey (requestExitRow c ep finished_at duration_ms exc)) =
        false := hfresh
    simp only [requestExitWrite, hset, upsert_api_request]
    rw [sqlUpsert_of_not_mem apiRequestKey t _ hfresh2]
  · cases exc <;> simp [requestExitRow]
  · intro c2 h2
    simp [requestExitWrite, h2]

/-- Witness for C6 (amended): a failing call in a scope whose endpoint
was set but whose status was not appends exactly one row with `ok = 0`
and a null `http_status`; the same close with the endpoint never set
persists nothing. -/
theorem request_context_exit_contract_witness :
    requestExitWrite [] exReqStateSet "2025-06-01T14:00:02+00:00" 2000
        (some ⟨"HTTPError", "boom"⟩) =
      some [requestExitRow exReqStateSet "/v1/artists/sp_x"
        "2025-06-01T14:00:02+00:00" 2000 (some ⟨"HTTPError", "boom"⟩)] ∧
    (requestExitRow exReqStateSet "/v1/artists/sp_x"
        "2025-06-01T14:00:02+00:00" 2000 (some ⟨"HTTPError", "boom"⟩)).ok = 0 ∧
    (requestExitRow exReqStateSet "/v1/artists/sp_x"
        "2025-06-01T14:00:02+00:00" 2000
        (some ⟨"HTTPError", "boom"⟩)).http_status = none ∧
    requestExitWrite [] exReqState "2025-06-01T14:00:02+00:00" 2000
        (some ⟨"HTTPError", "boom"⟩) = none := by
  have h := request_context_exit_contract [] exReqStateSet "/v1/artists/sp_x"
    "2025-06-01T14:00:02+00:00" 2000 (some ⟨"HTTPError", "boom"⟩) rfl rfl
  exact ⟨h.1, h.2.1.mpr rfl, h.2.2.1, h.2.2.2.2.2.1 exReqState rfl⟩

/-- C9 (confirmed): whatever value the caller passes to
`set_http_status` before the scope closes, the persisted row's
`http_status` is `None`: the setter's value is stored in the context but
never reaches the persisted row. -/
theorem request_context_http_status_discarded (c : RequestContextState)
    (v : Int) (ep finished_at : String) (duration_ms : Int)
    (exc : Option PyExc) :
    (set_http_status c v).http_status = some v ∧
    (requestExitRow (set_http_status c v) ep finished_at duration_ms
        exc).http_status = none :=
  ⟨rfl, rfl⟩

/-! ### Run and Step Tracers (src/provenance/workflow_provenance.py) -/

/-- Row of the `pipeline_run` table as written by `upsert_run_meta`. -/
structure PipelineRunRow where
  run_id : String
  run_day : String
  commit_hash : String
  started_at : String
  ended_at : Option String
  duration_ms : Option Int
  status : String
  error_message : Option String
  error_type : Option String
deriving DecidableEq

/-- Row persisted by `RunContext.__exit__`: status `completed` or
`failed`, error message truncated to 1000 characters
(`str(exc_value)[:1000]`), error kind recorded. -/
def runExitRow (run_id run_day commit_hash started_at ended_at : String)
    (duration_ms : Int) (exc : Option PyExc) : PipelineRunRow :=
  { run_id := run_id
    run_day := run_day
    commit_hash := commit_hash
    started_at := started_at
    ended_at := some ended_at
    duration_ms := some duration_ms
    status := if exc.isSome then "failed" else "completed"
    error_message := exc.map (fun e => e.msg.take 1000)
    error_type := exc.map PyExc.etype }

/-- `RunContext.__exit__` returns `False`: exceptions are re-raised. -/
def runExitReturn : Bool := false

/-- Mutable state of a `StepContext` at the time `__exit__` runs. -/
structure StepContextState where
  run_id : String
  step_name : String
  inputs : List String
  outputs : List String
  started_at : String
  success_count : Nat
  error_count : Nat
  step_run_id : String
deriving DecidableEq

/-- Row of the `pipeline_run_step` table as written by
`upsert_run_step_meta`. -/
structure PipelineRunStepRow where
  step_run_id : String
  run_id : String
  step_name : String
  started_at : String
  ended_at : Option String
  duration_ms : Option Int
  success_count : Option Nat
  error_count : Option Nat
  status : String
  inputs_json : List String
  outputs_json : List String
  error_message : Option String
  error_type : Option String
deriving DecidableEq

/-- Row persisted by `StepContext.__exit__`: when both counters are still
zero they are persisted as NULL (unknown), otherwise both actual values;
status `completed` or `failed`; the error message is persisted in full
(`str(exc_value)`, no truncation — source line 98). -/
def stepExitRow (c : StepContextState) (ended_at : String) (duration_ms : Int)
    (exc : Option PyExc) : PipelineRunStepRow :=
  { step_run_id := c.step_run_id
    run_id := c.run_id
    step_name := c.step_name
    started_at := c.started_at
    ended_at := some ended_at
    duration_ms := some duration_ms
    success_count :=
      if c.error_count = 0 ∧ c.success_count = 0 then none else some c.success_count
    error_count :=
      if c.error_count = 0 ∧ c.success_count = 0 then none else some c.error_count
    status := if exc.isSome then "failed" else "completed"
    inputs_json := c.inputs
    outputs_json := c.outputs
    error_message := exc.map PyExc.msg
    error_type := exc.map PyExc.etype }

/-- `StepContext.__exit__` returns `False`: exceptions are re-raised. -/
def stepExitReturn : Bool := false

/-! ### Claims C7 and C8: the Run and Step Tracers -/

/-- An error message of 1001 characters, longer than the Run Tracer's
truncation bound. -/
def longMsg : String := String.mk (List.replicate 1001 'a')

/-- Example step-context state. -/
def exStepState : StepContextState :=
  { run_id := "run_late", step_name := "spotify_daily"
    inputs := ["tracked_artists"], outputs := ["spotify_artist_daily"]
    started_at := "2025-06-01T14:00:00+00:00"
    success_count := 0, error_count := 0, step_run_id := "step_1" }

/-- C7 counterexample: a 1001-character error message escaping a step
scope is persisted by `StepContext.__exit__` in full — its persisted
length exceeds the 1000-character bound that `RunContext.__exit__`
applies — so the truncation bound does not apply to the Step Tracer's
persisted error message. -/
theorem step_exit_message_not_truncated :
    (stepExitRow exStepState "2025-06-01T14:10:00+00:00" 600000
        (some ⟨"ValueError", longMsg⟩)).error_message = some longMsg ∧
    (runExitRow "run_late" "2025-06-01" "deadbeef"
        "2025-06-01T14:00:00+00:00" "2025-06-01T14:10:00+00:00" 600000
        (some ⟨"ValueError", longMsg⟩)).error_message =
      some (longMsg.take 1000) ∧
    1000 < longMsg.length := by
  refine ⟨rfl, rfl, ?_⟩
  rw [← String.length_data]
  show 1000 < (List.replicate 1001 'a').length
  rw [List.length_replicate]
  omega

/-- C7 (amended): when an exception escapes, both tracers persist
status `failed` with the error kind and re-raise the exception; the Run
Tracer's persisted message is truncated to at most 1000 characters,
while the Step Tracer persists the message in full, untruncated. -/
theorem run_and_step_exit_error_capture (run_id run_day commit_hash
    started_at ended_at : String) (duration_ms : Int)
    (c : StepContextState) (e : PyExc) :
    (runExitRow run_id run_day commit_hash started_at ended_at duration_ms
        (some e)).status = "failed" ∧
    (runExitRow run_id run_day commit_hash started_at ended_at duration_ms
        (some e)).error_message = some (e.msg.take 1000) ∧
    (e.msg.take 1000).length ≤ 1000 ∧
    (runExitRow run_id run_day commit_hash started_at ended_at duration_ms
        (some e)).error_type = some e.etype ∧
    (stepExitRow c ended_at duration_ms (some e)).status = "failed" ∧
    (stepExitRow c ended_at duration_ms (some e)).error_message = some e.msg ∧
    (stepExitRow c ended_at duration_ms (some e)).error_type = some e.etype ∧
    runExitReturn = false ∧ stepExitReturn = false := by
  refine ⟨rfl, rfl, ?_, rfl, rfl, rfl, rfl, rfl, rfl⟩
  rw [← String.length_data, String.data_take, List.length_take]
  omega

/-- C8 (confirmed): if neither counter was ever incremented (both still
zero at close), both tallies are persisted as NULL (unknown), not zero;
otherwise both are persisted with their actual values — the persisted
pair is always all-or-nothing. -/
theorem step_exit_counts_unknown_vs_zero (c : StepContextState)
    (ended_at : String) (duration_ms : Int) (exc : Option PyExc) :
    ((stepExitRow c ended_at duration_ms exc).success_count = none ↔
      (stepExitRow c ended_at duration_ms exc).error_count = none) ∧
    ((stepExitRow c ended_at duration_ms exc).success_count,
      (stepExitRow c ended_at duration_ms exc).error_count) =
      (if c.success_count = 0 ∧ c.error_count = 0 then (none, none)
       else (some c.success_count, some c.error_count)) := by
  by_cases h1 : c.error_count = 0 <;> by_cases h2 : c.success_count = 0 <;>
    simp [stepExitRow, h1, h2]

end ArtistData
